import Mathlib

/-!
Verification of the CDP automation client of the chrome-osint-extension
repository (lib/cdp.js and the scraper lifecycle around it), as a shallow
embedding in Lean.

The embedding models:
- the single-quote escaping applied to values interpolated into generated
  JavaScript expressions (`selector.replace(/'/g, "\\'")`), together with a
  lexer for JavaScript single-quoted string literals, to reason about
  break-out of interpolated values;
- the expression builders of the derived helpers `getText`, `getTextAll`,
  `getAttribute`, `exists`, `click`, `type` and the existence check of
  `waitForSelector`;
- the command channel (request/response correlation by id);
- `goto`'s load listener, its timeout race, and the listener registry;
- `_sendCommand`'s attached guard, `close`'s best-effort teardown, and the
  single-use session lifecycle;
- the polling loop of `waitForSelector`;
- the session open/close discipline of the scrapers (`scrapeVirusTotal`).
-/

namespace Cdp

/-- One `'` becomes `\'`; all other characters are kept.  This is the
character-level meaning of `s.replace(/'/g, "\\'")` used throughout
`lib/cdp.js` (lines 117, 150, 165, 181, 196, 206, 222, 223). -/
def escList : List Char → List Char
  | [] => []
  | c :: cs => if c = '\'' then '\\' :: '\'' :: escList cs else c :: escList cs

/-- String form of the escaping routine. -/
def escapeQuotes (s : String) : String := String.mk (escList s.data)

/-- The value a JavaScript lexer assigns to the character following a
backslash inside a single-quoted literal (only the escapes relevant here;
`\'` yields `'`, `\\` yields `\`, other characters map to themselves or a
control character). -/
def jsEsc (c : Char) : Char :=
  if c = 'n' then '\n' else if c = 't' then '\t' else if c = 'r' then '\r' else c

/-- Lexer for the body of a JavaScript single-quoted string literal: the
input is the character stream after the opening `'`; the result is the
literal's value and the remaining stream after the closing `'`, or `none`
if the literal never closes. -/
def lexSQ : List Char → Option (List Char × List Char)
  | [] => none
  | c :: [] =>
    if c = '\\' then none else if c = '\'' then some ([], []) else none
  | c :: e :: cs =>
    if c = '\\' then (lexSQ cs).map (fun p => (jsEsc e :: p.1, p.2))
    else if c = '\'' then some ([], e :: cs)
    else (lexSQ (e :: cs)).map (fun p => (c :: p.1, p.2))

/-! ### Generated expression templates (lib/cdp.js)

Each `*Template` is the raw template text with holes for the interpolated
values; each `*Expr` builds the expression exactly as the source does,
applying `escapeQuotes` to precisely the values the source escapes. -/

/-- Template of `getText` (lines 151-156). -/
def getTextTemplate (sel : String) : String :=
  "\n      (function() \x7b\n        const el = document.querySelector('" ++ sel ++
  "');\n        return el ? el.textContent.trim() : null;\n      \x7d)()\n    "

/-- `getText` (lines 149-157): escapes the selector, then interpolates. -/
def getTextExpr (selector : String) : String :=
  let escapedSelector := escapeQuotes selector
  "\n      (function() \x7b\n        const el = document.querySelector('" ++ escapedSelector ++
  "');\n        return el ? el.textContent.trim() : null;\n      \x7d)()\n    "

/-- Template of `getTextAll` (lines 166-171). -/
def getTextAllTemplate (sel : String) : String :=
  "\n      (function() \x7b\n        const els = document.querySelectorAll('" ++ sel ++
  "');\n        return Array.from(els).map(el => el.textContent.trim());\n      \x7d)()\n    "

/-- `getTextAll` (lines 164-172). -/
def getTextAllExpr (selector : String) : String :=
  let escapedSelector := escapeQuotes selector
  "\n      (function() \x7b\n        const els = document.querySelectorAll('" ++ escapedSelector ++
  "');\n        return Array.from(els).map(el => el.textContent.trim());\n      \x7d)()\n    "

/-- Template of `getAttribute` (lines 182-187), with holes for the selector
and for the attribute name. -/
def getAttributeTemplate (sel attr : String) : String :=
  "\n      (function() \x7b\n        const el = document.querySelector('" ++ sel ++
  "');\n        return el ? el.getAttribute('" ++ attr ++ "') : null;\n      \x7d)()\n    "

/-- `getAttribute` (lines 180-188): the source escapes the selector
(line 181) but interpolates `attribute` verbatim (line 185). -/
def getAttributeExpr (selector attr : String) : String :=
  let escapedSelector := escapeQuotes selector
  "\n      (function() \x7b\n        const el = document.querySelector('" ++ escapedSelector ++
  "');\n        return el ? el.getAttribute('" ++ attr ++ "') : null;\n      \x7d)()\n    "

/-- Template of `exists` (line 197) and of `waitForSelector`'s existence
check (line 117). -/
def existsTemplate (sel : String) : String :=
  "!!document.querySelector('" ++ sel ++ "')"

/-- `exists` (lines 195-198). -/
def existsExpr (selector : String) : String :=
  let escapedSelector := escapeQuotes selector
  "!!document.querySelector('" ++ escapedSelector ++ "')"

/-- Template of `click` (lines 207-212). -/
def clickTemplate (sel : String) : String :=
  "\n      (function() \x7b\n        const el = document.querySelector('" ++ sel ++
  "');\n        if (el) el.click();\n      \x7d)()\n    "

/-- `click` (lines 205-213). -/
def clickExpr (selector : String) : String :=
  let escapedSelector := escapeQuotes selector
  "\n      (function() \x7b\n        const el = document.querySelector('" ++ escapedSelector ++
  "');\n        if (el) el.click();\n      \x7d)()\n    "

/-- Template of `type` (lines 224-232), with holes for the selector and the
text. -/
def typeTemplate (sel txt : String) : String :=
  "\n      (function() \x7b\n        const el = document.querySelector('" ++ sel ++
  "');\n        if (el) \x7b\n          el.value = '" ++ txt ++
  "';\n          el.dispatchEvent(new Event('input', \x7b bubbles: true \x7d));\n        \x7d\n      \x7d)()\n    "

/-- `type` (lines 221-233): escapes both the selector and the text. -/
def typeExpr (selector text : String) : String :=
  let escapedSelector := escapeQuotes selector
  let escapedText := escapeQuotes text
  "\n      (function() \x7b\n        const el = document.querySelector('" ++ escapedSelector ++
  "');\n        if (el) \x7b\n          el.value = '" ++ escapedText ++
  "';\n          el.dispatchEvent(new Event('input', \x7b bubbles: true \x7d));\n        \x7d\n      \x7d)()\n    "

/-! ### Command/response correlation (spec §4.2)

`Page._sendCommand` (lib/cdp.js lines 54-65) delegates transmission and
reply correlation to the `chrome.debugger.sendCommand` platform call; the
id-keyed pending table itself is not code of this repository. -/

/-- A protocol command: method name plus its allocated request id
(spec §3: monotonically increasing integer, unique per session). -/
structure Command where
  method : String
  id : Nat
deriving DecidableEq

/-- A protocol response, correlated 1:1 with its command by id (spec §3). -/
structure Response where
  id : Nat
  result : String
deriving DecidableEq

/-- Modelled from the spec: the CommandChannel's routing of an arrived
response stream to a waiter (spec §4.2) — the pending-request table keyed
by request id lives inside the `chrome.debugger` platform, not in this
repository's source, so it is modelled from the spec's words: the waiter
for command `c` receives the response whose id matches `c.id`.
`responses` is the arrival-ordered list of response frames. -/
def route (responses : List Response) (c : Command) : Option Response :=
  responses.find? (fun r => r.id == c.id)

/-! ### goto's load listener (lib/cdp.js lines 73-104) -/

/-- The condition under which `goto`'s debugger-event listener (lines
83-91) resolves the navigation wait: the event's tabId equals the page's
tabId and the method is `Page.loadEventFired` or
`Page.domContentEventFired`.  The `waitUntil` option destructured on line
74 is never consulted by the listener. -/
def gotoListenerMatches (tabId sourceTabId : Nat) (method : String) : Bool :=
  sourceTabId == tabId &&
    (method == "Page.loadEventFired" || method == "Page.domContentEventFired")

/-- The single load-complete signal the spec says `waitUntil` selects
(spec §4.4: "load or DOM-ready, per waitUntil"). -/
def waitUntilSignal (waitUntil : String) : String :=
  if waitUntil = "load" then "Page.loadEventFired" else "Page.domContentEventFired"

/-- Listener condition as the spec describes it: resolve exactly on the
signal selected by `waitUntil`. -/
def specListenerMatches (waitUntil : String) (tabId sourceTabId : Nat) (method : String) : Bool :=
  sourceTabId == tabId && method == waitUntilSignal waitUntil

/-! ### Teardown and command sending (lib/cdp.js lines 36-65, 264-279) -/

/-- Externally observable actions of the session against the browser. -/
inductive Action
  | detach
  | removeTab
  | transmit (method : String)
deriving DecidableEq

/-- `chrome.debugger.detach` (line 267): may fail. -/
def chromeDetach (fails : Bool) : Except String Unit :=
  if fails then Except.error "detach failed" else Except.ok ()

/-- `chrome.tabs.remove` (line 275): may fail. -/
def chromeRemove (fails : Bool) : Except String Unit :=
  if fails then Except.error "remove failed" else Except.ok ()

/-- A `try { ... } catch (err) { /- ignore -/ }` around a call: the result,
failure included, is discarded. -/
def attempt (call : Except String Unit) : Unit :=
  match call with
  | Except.ok _ => ()
  | Except.error _ => ()

/-- Result of one `Page.close()` call: the attached flag afterwards, the
actions performed against the browser, and the call's own outcome. -/
structure CloseRun where
  attached : Bool
  actions : List Action
  outcome : Except String Unit

/-- `Page.close` (lines 264-279): if attached, detach inside try/catch
(errors ignored) and clear the flag; then, unconditionally, remove the tab
inside try/catch (errors ignored).  `detachFails` and `removeFails` model
the two external calls failing. -/
def close (attached detachFails removeFails : Bool) : CloseRun :=
  if attached then
    let _ := attempt (chromeDetach detachFails)
    let _ := attempt (chromeRemove removeFails)
    { attached := false
      actions := [Action.detach, Action.removeTab]
      outcome := Except.ok () }
  else
    let _ := attempt (chromeRemove removeFails)
    { attached := attached
      actions := [Action.removeTab]
      outcome := Except.ok () }

/-- The message of the error `_sendCommand` throws when the session is not
attached (line 56). -/
def notAttachedMsg : String := "Debugger not attached"

/-- `Page._sendCommand` (lines 54-65): if not attached, throw immediately
without transmitting; otherwise transmit and return the remote outcome
(a failure is logged and rethrown).  The result pairs the call's outcome
with the actions performed. -/
def sendCommand (attached : Bool) (method params : String)
    (remote : String → String → Except String String) :
    Except String String × List Action :=
  if !attached then
    (Except.error notAttachedMsg, [])
  else
    match remote method params with
    | Except.ok v => (Except.ok v, [Action.transmit method])
    | Except.error e => (Except.error e, [Action.transmit method])

/-- `Page.evaluate` (lines 130-142) issues `Runtime.evaluate` through
`_sendCommand` with the expression as parameter. -/
def evaluate (attached : Bool) (expression : String)
    (remote : String → String → Except String String) :
    Except String String × List Action :=
  sendCommand attached "Runtime.evaluate" expression remote

/-- A remote side that answers every command successfully. -/
def remoteStub : String → String → Except String String :=
  fun _ _ => Except.ok "null"

/-! ### The navigation event-wait (lib/cdp.js lines 77-94) -/

/-- The message of `goto`'s timeout rejection (line 80). -/
def navTimeoutMsg (timeout : Nat) : String :=
  "Navigation timeout after " ++ toString timeout ++ "ms"

/-- State of one navigation event-wait: whether the listener is still on
`chrome.debugger.onEvent`, whether the deadline timer is still pending,
and the wait's outcome once settled. -/
structure WaitState where
  listenerRegistered : Bool
  timerActive : Bool
  outcome : Option (Except String Unit)

/-- State right after `goto` registers the listener (line 93) and starts
the deadline timer (line 78), before any event or timer callback runs. -/
def initialWait : WaitState :=
  { listenerRegistered := true, timerActive := true, outcome := none }

/-- State after the listener body ran: timer cleared (line 87), listener
removed (line 88), promise resolved (line 89). -/
def waitResolvedState : WaitState :=
  { listenerRegistered := false, timerActive := false,
    outcome := some (Except.ok ()) }

/-- State after the timer callback ran: listener removed (line 79),
promise rejected with the timeout error (line 80). -/
def waitTimedOutState (timeout : Nat) : WaitState :=
  { listenerRegistered := false, timerActive := false,
    outcome := some (Except.error (navTimeoutMsg timeout)) }

/-- One event-loop callback of the wait (the JavaScript event loop runs
callbacks one at a time):
- a debugger event matching the listener condition runs the listener body
  (lines 83-91) if the listener is registered: clear the timer, remove the
  listener, resolve;
- an event that does not match, or any event when the listener has been
  removed, changes nothing;
- the deadline timer firing (lines 78-81) requires the timer still pending:
  remove the listener, reject with the timeout error. -/
inductive WaitStep (tabId timeout : Nat) : WaitState → WaitState → Prop
  | eventFired (s : WaitState) (sourceTabId : Nat) (method : String)
      (hreg : s.listenerRegistered = true)
      (hmatch : gotoListenerMatches tabId sourceTabId method = true) :
      WaitStep tabId timeout s waitResolvedState
  | eventIgnored (s : WaitState) (sourceTabId : Nat) (method : String)
      (hmatch : gotoListenerMatches tabId sourceTabId method = false) :
      WaitStep tabId timeout s s
  | eventUnheard (s : WaitState) (sourceTabId : Nat) (method : String)
      (hreg : s.listenerRegistered = false) :
      WaitStep tabId timeout s s
  | timerFired (s : WaitState)
      (htimer : s.timerActive = true) :
      WaitStep tabId timeout s (waitTimedOutState timeout)

/-- States reachable from the start of the event-wait. -/
inductive WaitReach (tabId timeout : Nat) : WaitState → Prop
  | init : WaitReach tabId timeout initialWait
  | step (s s' : WaitState) (hr : WaitReach tabId timeout s)
      (hs : WaitStep tabId timeout s s') : WaitReach tabId timeout s'

/-! ### waitForSelector's polling loop (lib/cdp.js lines 112-123) -/

/-- The message of `waitForSelector`'s timeout error (line 122). -/
def selectorTimeoutMsg (selector : String) : String :=
  "Timeout waiting for selector: " ++ selector

/-- The polling loop of `waitForSelector` in the timing model where each
existence check takes no time and each sleep lasts exactly `interval`:
`elapsed` is `Date.now() - startTime`; `found elapsed` is the existence
check's result at that instant.  Returns the number of existence checks
performed and whether the selector was found.  The fuel argument only
ensures termination; with `interval > 0` the loop exits on its own before
`timeout + 1` iterations. -/
def waitForSelectorRun (found : Nat → Bool) (timeout interval : Nat) :
    Nat → Nat → Nat × Bool
  | 0, _ => (0, false)
  | Nat.succ fuel, elapsed =>
    if elapsed < timeout then
      if found elapsed then (1, true)
      else
        let rest := waitForSelectorRun found timeout interval fuel (elapsed + interval)
        (rest.1 + 1, rest.2)
    else (0, false)

/-- `Page.waitForSelector` (lines 112-123) in the exact-timing model:
poll until found or deadline; on deadline throw the timeout error naming
the selector. -/
def waitForSelector (found : Nat → Bool) (selector : String)
    (timeout interval : Nat) : Nat × Except String Unit :=
  let r := waitForSelectorRun found timeout interval (timeout + 1) 0
  (r.1, if r.2 then Except.ok () else Except.error (selectorTimeoutMsg selector))

/-! ### Session lifecycle (lib/cdp.js lines 10-20, 26-46, 264-279)

The constructor (line 29) starts with `_attached = false`; `createPage`
(lines 10-20) calls `_attach` once; afterwards only the public operations
(command-sending operations and `close`) run. -/

/-- A public operation on a session after creation: a command-sending
operation (every helper reduces to `_sendCommand`), or `close` with the
outcomes of its two external calls. -/
inductive PubOp
  | sendOp (method params : String) (remote : String → String → Except String String)
  | closeOp (detachFails removeFails : Bool)

/-- Effect of one public operation on the attached flag, with the actions
it performs. -/
def pubStep (attached : Bool) : PubOp → Bool × List Action
  | PubOp.sendOp m p remote => (attached, (sendCommand attached m p remote).2)
  | PubOp.closeOp dF rF =>
    let r := close attached dF rF
    (r.attached, r.actions)

/-- `Page._attach` (lines 36-46): no-op when already attached; otherwise
`chrome.debugger.attach` (success modelled by `attachOk`) sets the flag,
after which the three domain-enable commands are sent. -/
def attachStep (attached attachOk : Bool) : Bool × List Action :=
  if attached then (attached, [])
  else if attachOk then
    (true, [Action.transmit "Page.enable", Action.transmit "Runtime.enable",
            Action.transmit "DOM.enable"])
  else (attached, [])

/-- The attached-flag trajectory of a run of public operations, starting
from flag `a`. -/
def traj : Bool → List PubOp → List Bool
  | a, [] => [a]
  | a, op :: ops => a :: traj (pubStep a op).1 ops

/-- The attached flag after a run of public operations. -/
def runState : Bool → List PubOp → Bool
  | a, [] => a
  | a, op :: ops => runState (pubStep a op).1 ops

/-- All actions performed by a run of public operations. -/
def runActs : Bool → List PubOp → List Action
  | _, [] => []
  | a, op :: ops => (pubStep a op).2 ++ runActs (pubStep a op).1 ops

/-- Number of false→true transitions along a flag trajectory. -/
def rises : List Bool → Nat
  | [] => 0
  | [_] => 0
  | a :: b :: t => (if !a && b then 1 else 0) + rises (b :: t)

/-- Number of true→false transitions along a flag trajectory. -/
def falls : List Bool → Nat
  | [] => 0
  | [_] => 0
  | a :: b :: t => (if a && !b then 1 else 0) + falls (b :: t)

/-- Whole-session flag trajectory: the constructor's `false`, then the
flag after `createPage`'s single `_attach`, then the public operations. -/
def fullTraj (attachOk : Bool) (ops : List PubOp) : List Bool :=
  false :: traj (attachStep false attachOk).1 ops

/-! ### Scraper session discipline (scrapers, e.g. scrapeVirusTotal) -/

/-- Observable lifecycle trace of one scraper invocation. -/
structure ScrapeTrace where
  tabCreated : Bool
  attached : Bool
  pageReturned : Bool
  bodySucceeded : Bool
  closeCalls : Nat
deriving DecidableEq

/-- `createPage` (lib/cdp.js lines 10-20): `chrome.tabs.create` makes the
tab, then `_attach` runs.  `attachOk` models `chrome.debugger.attach`
(line 39) succeeding; `enableOk` models the three domain-enable commands
(lines 43-45) succeeding.  If either throws, `createPage` rethrows and no
Page reaches the caller — note the attached flag is already `true` when an
enable command throws.  Result: (tab created, attached flag, returned
page?). -/
def createPageRun (attachOk enableOk : Bool) : Bool × Bool × Option Unit :=
  let tabCreated := true
  if attachOk then
    let attached := true
    if enableOk then (tabCreated, attached, some ())
    else (tabCreated, attached, none)
  else (tabCreated, false, none)

/-- `scrapeVirusTotal` (and the other two scrapers, which share the same
shape): `let page = null; try { page = await createPage(); ...body... }
catch { return error } finally { if (page) await page.close(); }`.
If `createPage` throws, `page` is still null and the finally block skips
the close; if it returns, the finally block closes exactly once whether
the body succeeded or threw. -/
def scrapeVirusTotalRun (attachOk enableOk bodyOk : Bool) : ScrapeTrace :=
  let r := createPageRun attachOk enableOk
  match r.2.2 with
  | some _ =>
    { tabCreated := r.1, attached := r.2.1, pageReturned := true,
      bodySucceeded := bodyOk, closeCalls := 1 }
  | none =>
    { tabCreated := r.1, attached := r.2.1, pageReturned := false,
      bodySucceeded := false, closeCalls := 0 }

/-- A concrete batch of two concurrently issued commands. -/
def cmdsExample : List Command :=
  [{ method := "Page.navigate", id := 1 }, { method := "Runtime.evaluate", id := 2 }]

/-- Their responses arriving out of order. -/
def responsesExample : List Response :=
  [{ id := 2, result := "value2" }, { id := 1, result := "value1" }]

/-! ## Theorems -/

/-- Escaping the closing quote is inverted by the lexer: for a value
without backslashes, the escaped text placed inside single quotes lexes
back to exactly the original value. -/
theorem lexSQ_escList (cs : List Char) (rest : List Char) (h : '\\' ∉ cs) :
    lexSQ (escList cs ++ '\'' :: rest) = some (cs, rest) := by
  induction cs with
  | nil =>
    rw [escList, List.nil_append]
    cases rest with
    | nil => rfl
    | cons e cs => rfl
  | cons c t ih =>
    have hc : ¬c = '\\' := fun hcc => h (hcc ▸ List.mem_cons_self c t)
    have ht : '\\' ∉ t := fun hm => h (List.mem_cons_of_mem _ hm)
    by_cases hq : c = '\''
    · subst hq
      rw [escList, if_pos rfl, List.cons_append, List.cons_append,
        lexSQ, if_pos rfl, ih ht]
      rfl
    · rw [escList, if_neg hq, List.cons_append]
      obtain ⟨e, cs', he⟩ : ∃ e cs', escList t ++ '\'' :: rest = e :: cs' := by
        cases hl : escList t ++ '\'' :: rest with
        | nil => exact absurd hl (by simp)
        | cons e cs' => exact ⟨e, cs', rfl⟩
      rw [he, lexSQ, if_neg hc, if_neg hq, ← he, ih ht]
      rfl

/-- C2 (counterexample): `getAttribute` does not apply the escaping routine
to its `attribute` argument — the generated expression differs from the one
in which every interpolated value is escaped, already for the attribute
name `data'x`. -/
theorem getAttribute_attr_unescaped_counterexample :
    getAttributeExpr "div" "data'x" ≠
      getAttributeTemplate (escapeQuotes "div") (escapeQuotes "data'x") := by
  decide

/-- C2 (amended): every derived helper escapes its selector and text
arguments before interpolation — but `getAttribute` interpolates its
attribute-name argument verbatim — and escape-then-lex of any
backslash-free value (in particular one containing single quotes) yields
exactly the original value, not a corrupted literal. -/
theorem helpers_escape_interpolations :
    (∀ s, getTextExpr s = getTextTemplate (escapeQuotes s)) ∧
    (∀ s, getTextAllExpr s = getTextAllTemplate (escapeQuotes s)) ∧
    (∀ s a, getAttributeExpr s a = getAttributeTemplate (escapeQuotes s) a) ∧
    (∀ s, existsExpr s = existsTemplate (escapeQuotes s)) ∧
    (∀ s, clickExpr s = clickTemplate (escapeQuotes s)) ∧
    (∀ s t, typeExpr s t = typeTemplate (escapeQuotes s) (escapeQuotes t)) ∧
    (∀ cs rest, '\\' ∉ cs → lexSQ (escList cs ++ '\'' :: rest) = some (cs, rest)) :=
  ⟨fun _ => rfl, fun _ => rfl, fun _ _ => rfl, fun _ => rfl, fun _ => rfl,
    fun _ _ => rfl, lexSQ_escList⟩

/-- The round-trip part of the amended C2 theorem instantiated at the
selector `a[title='x']` of the spec's test. -/
theorem helpers_escape_interpolations_witness :
    '\\' ∉ String.data "a[title='x']" ∧
      lexSQ (escList (String.data "a[title='x']") ++ '\'' :: []) =
        some (String.data "a[title='x']", []) :=
  ⟨by decide,
    helpers_escape_interpolations.2.2.2.2.2.2 (String.data "a[title='x']") [] (by decide)⟩

/-- C3 (counterexample): with `waitUntil = "load"` (the default), `goto`'s
listener also resolves on `Page.domContentEventFired`, an event the spec's
selected-signal rule excludes. -/
theorem goto_listener_counterexample :
    gotoListenerMatches 1 1 "Page.domContentEventFired" = true ∧
    specListenerMatches "load" 1 1 "Page.domContentEventFired" = false := by
  decide

/-- C3 (amended): `goto`'s navigation wait resolves exactly on events of
the page's own tab whose method is `Page.loadEventFired` or
`Page.domContentEventFired` — whichever arrives first — independent of the
`waitUntil` option, which is never consulted. -/
theorem goto_listener_amended (tabId sourceTabId : Nat) (method : String) :
    gotoListenerMatches tabId sourceTabId method = true ↔
      sourceTabId = tabId ∧
        (method = "Page.loadEventFired" ∨ method = "Page.domContentEventFired") := by
  simp [gotoListenerMatches]

/-- C4: `close` never raises and leaves `attached = false`, on a first
call, on a repeated call, and whether or not attach ever succeeded —
whatever the outcomes of the external detach and tab-removal calls. -/
theorem close_idempotent_safe (a dF rF dF' rF' : Bool) :
    (close a dF rF).outcome = Except.ok () ∧
    (close a dF rF).attached = false ∧
    (close (close a dF rF).attached dF' rF').outcome = Except.ok () ∧
    (close (close a dF rF).attached dF' rF').attached = false := by
  cases a <;> simp [close]

/-- C10: `close` always performs the tab-removal request, even when never
attached and on repeated calls; only the detach step is guarded by the
attached flag. -/
theorem close_always_removes_tab (a dF rF : Bool) :
    Action.removeTab ∈ (close a dF rF).actions ∧
    (Action.detach ∈ (close a dF rF).actions ↔ a = true) := by
  cases a <;> simp [close]

/-- C6: on a session with `attached = false`, `_sendCommand` — and hence
`evaluate` and every helper built on it — fails immediately with the
not-attached error and transmits nothing; and the session left by any
`close` call is in exactly that state. -/
theorem send_requires_attached (attached : Bool) (h : attached = false)
    (m p e : String) (remote : String → String → Except String String) :
    sendCommand attached m p remote = (Except.error notAttachedMsg, []) ∧
    evaluate attached e remote = (Except.error notAttachedMsg, []) ∧
    ∀ a dF rF, sendCommand (close a dF rF).attached m p remote =
      (Except.error notAttachedMsg, []) := by
  subst h
  refine ⟨rfl, rfl, fun a dF rF => ?_⟩
  have hcl : (close a dF rF).attached = false := by cases a <;> simp [close]
  rw [hcl]
  rfl

/-- The not-attached failure of the C6 theorem at a concrete closed
session. -/
theorem send_requires_attached_witness :
    (false = false) ∧
      sendCommand false "Page.navigate" "about:blank" remoteStub =
        (Except.error notAttachedMsg, []) :=
  ⟨rfl, (send_requires_attached false rfl "Page.navigate" "about:blank" "1+1"
    remoteStub).1⟩

/-- `find?` returns the unique element satisfying the predicate, wherever
it sits in the list. -/
theorem find_eq_some_of_unique {α : Type} (p : α → Bool) (l : List α) (a : α)
    (hmem : a ∈ l) (hp : p a = true)
    (huniq : ∀ x ∈ l, ∀ y ∈ l, p x = true → p y = true → x = y) :
    l.find? p = some a := by
  induction l with
  | nil => cases hmem
  | cons b t ih =>
    by_cases hb : p b = true
    · have hba : b = a := huniq b (List.mem_cons_self b t) a hmem hb hp
      rw [List.find?_cons_of_pos _ hb, hba]
    · have hat : a ∈ t := by
        rcases List.mem_cons.mp hmem with hab | hmt
        · exact absurd (hab ▸ hp) hb
        · exact hmt
      rw [List.find?_cons_of_neg _ (by simpa using hb)]
      exact ih hat (fun x hx y hy hpx hpy =>
        huniq x (List.mem_cons_of_mem _ hx) y (List.mem_cons_of_mem _ hy) hpx hpy)

/-- C1: when responses are correlated 1:1 with commands by id, every
command's caller receives exactly the response bearing its own command id,
and the routing is invariant under any reordering (interleaving,
out-of-order arrival) of the response stream. -/
theorem response_correlation (cmds : List Command) (responses : List Response)
    (hresp : ∀ r ∈ responses, ∀ r' ∈ responses, r.id = r'.id → r = r')
    (hcomplete : ∀ c ∈ cmds, ∃ r ∈ responses, r.id = c.id) :
    ∀ c ∈ cmds, ∃ r, r.id = c.id ∧ route responses c = some r ∧
      ∀ responses', responses'.Perm responses → route responses' c = some r := by
  intro c hc
  obtain ⟨r, hrmem, hrid⟩ := hcomplete c hc
  have hpr : (fun x : Response => x.id == c.id) r = true := by simp [hrid]
  refine ⟨r, hrid, ?_, ?_⟩
  · exact find_eq_some_of_unique _ _ _ hrmem hpr
      (fun x hx y hy hpx hpy => hresp x hx y hy (by
        have hx' : x.id = c.id := by simpa using hpx
        have hy' : y.id = c.id := by simpa using hpy
        rw [hx', hy']))
  · intro rs' hperm
    exact find_eq_some_of_unique _ _ _ (hperm.mem_iff.mpr hrmem) hpr
      (fun x hx y hy hpx hpy =>
        hresp x (hperm.mem_iff.mp hx) y (hperm.mem_iff.mp hy) (by
          have hx' : x.id = c.id := by simpa using hpx
          have hy' : y.id = c.id := by simpa using hpy
          rw [hx', hy']))

/-- The C1 correlation at a concrete two-command batch whose responses sit
in the list out of order. -/
theorem response_correlation_witness :
    (∀ r ∈ responsesExample, ∀ r' ∈ responsesExample, r.id = r'.id → r = r') ∧
    (∀ c ∈ cmdsExample, ∃ r ∈ responsesExample, r.id = c.id) ∧
    ({ method := "Page.navigate", id := 1 } : Command) ∈ cmdsExample ∧
    (∃ r, r.id = ({ method := "Page.navigate", id := 1 } : Command).id ∧
      route responsesExample { method := "Page.navigate", id := 1 } = some r ∧
      ∀ responses', responses'.Perm responsesExample →
        route responses' { method := "Page.navigate", id := 1 } = some r) :=
  ⟨by decide, by decide, by decide,
    response_correlation cmdsExample responsesExample (by decide) (by decide)
      { method := "Page.navigate", id := 1 } (by decide)⟩

/-- Every state the event-wait can reach is the initial state or one of
the two settled states. -/
theorem waitReach_classify (tabId timeout : Nat) (s : WaitState)
    (h : WaitReach tabId timeout s) :
    s = initialWait ∨ s = waitResolvedState ∨ s = waitTimedOutState timeout := by
  induction h with
  | init => exact Or.inl rfl
  | step s s' hr hs ih =>
    cases hs with
    | eventFired src m hreg hmatch => exact Or.inr (Or.inl rfl)
    | eventIgnored src m hmatch => exact ih
    | eventUnheard src m hreg => exact ih
    | timerFired htimer => exact Or.inr (Or.inr rfl)

/-- C5: in every reachable state of the navigation event-wait, a settled
wait has its listener deregistered and its timer cleared; a settled
outcome is the awaited event's resolution or the deadline's timeout error
and can never change again; and an unsettled wait can still settle — so
exactly one outcome occurs and no listener is left registered after the
call returns. -/
theorem wait_exactly_one_outcome (tabId timeout : Nat) (s : WaitState)
    (h : WaitReach tabId timeout s) :
    (s.outcome ≠ none → s.listenerRegistered = false ∧ s.timerActive = false) ∧
    (∀ o, s.outcome = some o →
      (o = Except.ok () ∨ o = Except.error (navTimeoutMsg timeout)) ∧
      ∀ s', WaitStep tabId timeout s s' → s' = s) ∧
    (s.outcome = none → ∃ s', WaitStep tabId timeout s s' ∧ s'.outcome ≠ none) := by
  rcases waitReach_classify tabId timeout s h with hs | hs | hs <;> subst hs
  · refine ⟨fun hc => absurd rfl hc, ?_, fun _ => ?_⟩
    · intro o ho
      simp [initialWait] at ho
    · exact ⟨_, WaitStep.timerFired initialWait rfl, by simp [waitTimedOutState]⟩
  · refine ⟨fun _ => ⟨rfl, rfl⟩, ?_, ?_⟩
    · intro o ho
      obtain rfl := Option.some.inj ho
      refine ⟨Or.inl rfl, fun s' hstep => ?_⟩
      cases hstep with
      | eventFired src m hreg hmatch => rfl
      | eventIgnored src m hmatch => rfl
      | eventUnheard src m hreg => rfl
      | timerFired htimer => simp [waitResolvedState] at htimer
    · intro hnone
      simp [waitResolvedState] at hnone
  · refine ⟨fun _ => ⟨rfl, rfl⟩, ?_, ?_⟩
    · intro o ho
      obtain rfl := Option.some.inj ho
      refine ⟨Or.inr rfl, fun s' hstep => ?_⟩
      cases hstep with
      | eventFired src m hreg hmatch => simp [waitTimedOutState] at hreg
      | eventIgnored src m hmatch => rfl
      | eventUnheard src m hreg => rfl
      | timerFired htimer => rfl
    · intro hnone
      simp [waitTimedOutState] at hnone

/-- The C5 theorem at the state reached when the load event fires before
the deadline: the listener is deregistered and the timer cleared. -/
theorem wait_exactly_one_outcome_witness :
    WaitReach 1 30000 waitResolvedState ∧
    (waitResolvedState.listenerRegistered = false ∧
      waitResolvedState.timerActive = false) := by
  have hreach : WaitReach 1 30000 waitResolvedState :=
    WaitReach.step initialWait _ WaitReach.init
      (WaitStep.eventFired initialWait 1 "Page.loadEventFired" rfl (by decide))
  exact ⟨hreach,
    (wait_exactly_one_outcome 1 30000 _ hreach).1 (by simp [waitResolvedState])⟩

/-- C7: `waitForSelector` with a 1000 ms deadline and a 100 ms polling
interval, against a selector that never appears, performs exactly 10
existence checks (within the claimed bounds of 9 and 11) and fails with
the timeout error naming the selector. -/
theorem waitForSelector_poll_count (s : String) :
    waitForSelector (fun _ => false) s 1000 100 =
      (10, Except.error (selectorTimeoutMsg s)) ∧
    9 ≤ (waitForSelector (fun _ => false) s 1000 100).1 ∧
    (waitForSelector (fun _ => false) s 1000 100).1 ≤ 11 ∧
    selectorTimeoutMsg s = "Timeout waiting for selector: " ++ s := by
  have hrun : waitForSelectorRun (fun _ => false) 1000 100 1001 0 = (10, false) := rfl
  have hmain : waitForSelector (fun _ => false) s 1000 100 =
      (10, Except.error (selectorTimeoutMsg s)) := by
    simp [waitForSelector, hrun]
  refine ⟨hmain, ?_, ?_, rfl⟩ <;> rw [hmain]
  · exact by norm_num
  · exact by norm_num

/-- No public operation can set the attached flag: from an unattached
state every step leaves the session unattached. -/
theorem pubStep_false_fst (op : PubOp) : (pubStep false op).1 = false := by
  cases op with
  | sendOp m p remote => rfl
  | closeOp dF rF => simp [pubStep, close]

/-- An unattached session stays unattached under any run of public
operations. -/
theorem runState_false (ops : List PubOp) : runState false ops = false := by
  induction ops with
  | nil => rfl
  | cons op ops ih =>
    rw [runState, pubStep_false_fst]
    exact ih

/-- Running an operation list in two pieces. -/
theorem runState_append (a : Bool) (l l' : List PubOp) :
    runState a (l ++ l') = runState (runState a l) l' := by
  induction l generalizing a with
  | nil => rfl
  | cons op t ih =>
    rw [List.cons_append, runState, runState]
    exact ih _

/-- A trajectory starts at its start flag. -/
theorem traj_eq_cons (a : Bool) (ops : List PubOp) : ∃ t, traj a ops = a :: t := by
  cases ops with
  | nil => exact ⟨[], rfl⟩
  | cons op ops => exact ⟨_, rfl⟩

/-- No false→true transition ever occurs along a run of public
operations. -/
theorem rises_traj (a : Bool) (ops : List PubOp) : rises (traj a ops) = 0 := by
  induction ops generalizing a with
  | nil => rfl
  | cons op ops ih =>
    obtain ⟨t, ht⟩ := traj_eq_cons (pubStep a op).1 ops
    have h2 : rises ((pubStep a op).1 :: t) = 0 := by
      rw [← ht]
      exact ih _
    rw [traj, ht, rises, h2]
    cases a with
    | true => simp
    | false => rw [pubStep_false_fst]; simp

/-- A run started unattached has no true→false transition either. -/
theorem falls_traj_false (ops : List PubOp) : falls (traj false ops) = 0 := by
  induction ops with
  | nil => rfl
  | cons op ops ih =>
    rw [traj, pubStep_false_fst]
    obtain ⟨t, ht⟩ := traj_eq_cons false ops
    have h2 : falls (false :: t) = 0 := by
      rw [← ht]
      exact ih
    rw [ht, falls, h2]
    simp

/-- At most one true→false transition occurs along any run of public
operations. -/
theorem falls_traj_le_one (a : Bool) (ops : List PubOp) : falls (traj a ops) ≤ 1 := by
  induction ops generalizing a with
  | nil => cases a <;> simp [traj, falls]
  | cons op ops ih =>
    cases a with
    | false =>
      rw [falls_traj_false]
      exact Nat.zero_le 1
    | true =>
      rw [traj]
      cases hb : (pubStep true op).1 with
      | false =>
        obtain ⟨t, ht⟩ := traj_eq_cons false ops
        have h2 : falls (false :: t) = 0 := by
          rw [← ht]
          exact falls_traj_false ops
        rw [ht, falls, h2]
        simp
      | true =>
        obtain ⟨t, ht⟩ := traj_eq_cons true ops
        have h2 : falls (true :: t) ≤ 1 := by
          rw [← ht]
          exact ih _
        rw [ht, falls]
        simpa using h2

/-- An unattached session transmits nothing, whatever operations run. -/
theorem runActs_false_no_transmit (ops : List PubOp) (m : String) :
    Action.transmit m ∉ runActs false ops := by
  induction ops with
  | nil => simp [runActs]
  | cons op ops ih =>
    rw [runActs, pubStep_false_fst]
    intro hmem
    rcases List.mem_append.mp hmem with hop | hrest
    · cases op with
      | sendOp m' p remote => simp [pubStep, sendCommand, notAttachedMsg] at hop
      | closeOp dF rF => simp [pubStep, close] at hop
    · exact ih hrest

/-- C8: over every whole-session trajectory — constructor, one attach
attempt inside `createPage`, then any sequence of public operations — the
attached flag goes false→true at most once and true→false at most once;
after any `close` the flag is false for the rest of the run; and an
unattached session never transmits a command. -/
theorem session_single_use (attachOk : Bool) (ops : List PubOp) :
    rises (fullTraj attachOk ops) ≤ 1 ∧
    falls (fullTraj attachOk ops) ≤ 1 ∧
    (∀ a dF rF pre mid,
      runState a (pre ++ PubOp.closeOp dF rF :: mid) = false) ∧
    (∀ m ops', Action.transmit m ∉ runActs false ops') := by
  refine ⟨?_, ?_, ?_, fun m ops' => runActs_false_no_transmit ops' m⟩
  · obtain ⟨t, ht⟩ := traj_eq_cons (attachStep false attachOk).1 ops
    have h2 : rises ((attachStep false attachOk).1 :: t) = 0 := by
      rw [← ht]
      exact rises_traj _ ops
    rw [fullTraj, ht, rises, h2]
    cases attachOk <;> simp [attachStep]
  · obtain ⟨t, ht⟩ := traj_eq_cons (attachStep false attachOk).1 ops
    have h2 : falls ((attachStep false attachOk).1 :: t) ≤ 1 := by
      rw [← ht]
      exact falls_traj_le_one _ ops
    rw [fullTraj, ht, falls]
    simpa using h2
  · intro a dF rF pre mid
    have hsplit : pre ++ PubOp.closeOp dF rF :: mid =
        (pre ++ [PubOp.closeOp dF rF]) ++ mid := by simp
    rw [hsplit, runState_append, runState_append]
    have hcl : ∀ x : Bool, runState x [PubOp.closeOp dF rF] = false := by
      intro x
      cases x <;> simp [runState, pubStep, close]
    rw [hcl, runState_false]

/-- C9 (counterexample): when `chrome.debugger.attach` succeeds inside
`createPage` but a domain-enable command then throws, the scraper run has
opened a session (tab created, debugger attached) yet performs zero close
calls — the session is not closed exactly once. -/
theorem scraper_close_counterexample :
    (scrapeVirusTotalRun true false true).tabCreated = true ∧
    (scrapeVirusTotalRun true false true).attached = true ∧
    (scrapeVirusTotalRun true false true).closeCalls = 0 := by
  refine ⟨rfl, rfl, rfl⟩

/-- C9 (amended): every session that `createPage` successfully returns to
an extraction routine is closed exactly once, whether the routine's body
succeeds or fails; a page is returned exactly when both the attach and the
domain-enabling succeed (if `createPage` itself fails, no close happens
even though a tab — and possibly an attached debugger session — exists). -/
theorem scraper_close_amended (attachOk enableOk bodyOk : Bool) :
    (scrapeVirusTotalRun attachOk enableOk bodyOk).closeCalls =
      (if (scrapeVirusTotalRun attachOk enableOk bodyOk).pageReturned then 1 else 0) ∧
    (scrapeVirusTotalRun attachOk enableOk bodyOk).pageReturned = (attachOk && enableOk) := by
  cases attachOk <;> cases enableOk <;> cases bodyOk <;>
    simp [scrapeVirusTotalRun, createPageRun]

end Cdp
